import Mathlib

/-!
# Verification of `artoolkit.three.js` (jsartoolkit5 THREE.js integration)

Shallow embedding of `src/web/artk_demos/js/artoolkit.three.js`.

The file is glue between THREE.js and an external ARToolKit tracker.  We model:

* `Matrix4` — a THREE.js matrix whose `elements` field is a typed array of 16
  scalars (scalars are modelled as `Int`; no arithmetic is performed on them,
  only copying).
* `Object3D` — the fields of a THREE.js `Object3D` this code touches:
  `visible`, `matrixAutoUpdate` and `matrix`.
* `ARState` — the mutable state owned by the shim: a heap of `Object3D`s
  (JavaScript objects are references, so the heap maps references to object
  states and allocation hands out fresh references), together with the two
  lookup tables `patternMarkers` and `barcodeMarkers` mapping marker UIDs to
  heap references, exactly as in the source.
* the operations `createThreeMarker`, `createThreeBarcodeMarker`,
  `onGetMarker`, the per-frame `process` of the `ThreeARScene` object, and
  `renderOn` (as a trace of renderer calls).
* the initialisation handshake of `getUserMediaThreeScene`
  (`initWaitCount` / `initProgress` / `completeInit`) as a fold over the
  trace of ready events.

The external tracker (`artoolkit.process`, `getTransformationMatrix`,
`getCameraMatrix`) is an oracle: its per-frame output is a parameter — a list
of marker reports, each carrying the transformation matrix the tracker would
return for it, plus the camera matrix.
-/

/-- A JavaScript value as far as the return type of `setFromArray` is
concerned: `Float32Array.prototype.set` returns `undefined`, never the
matrix. -/
inductive JSValue where
  | undefinedVal : JSValue
  | matrixVal : List Int → JSValue
deriving DecidableEq, Repr

/-- THREE.js `Matrix4`: just its `elements` typed array (column-major,
16 entries in actual use). -/
structure Matrix4 where
  elements : List Int
deriving DecidableEq, Repr

/-- `TypedArray.prototype.set(src)` with offset 0: overwrites the first
`src.length` entries of `dst` and keeps the rest. -/
def typedArraySet (dst src : List Int) : List Int :=
  src ++ dst.drop src.length

/-- `THREE.Matrix4.prototype.setFromArray = function(m) { return
this.elements.set(m); };` — the resulting matrix paired with the JavaScript
return value of the call (which is the return value of `elements.set`,
i.e. `undefined`). -/
def Matrix4.setFromArray (mat : Matrix4) (m : List Int) : Matrix4 × JSValue :=
  ({ elements := typedArraySet mat.elements m }, JSValue.undefinedVal)

/-- The identity matrix a fresh THREE.js `Matrix4` holds, column-major. -/
def identityElements : List Int :=
  [1, 0, 0, 0, 0, 1, 0, 0, 0, 0, 1, 0, 0, 0, 0, 1]

/-- The fields of a THREE.js `Object3D` that `artoolkit.three.js` reads or
writes. -/
structure Object3D where
  visible : Bool
  matrixAutoUpdate : Bool
  matrix : Matrix4
deriving DecidableEq, Repr

/-- `new THREE.Object3D()`: visible, auto-updating, identity matrix. -/
def Object3D.new : Object3D :=
  { visible := true, matrixAutoUpdate := true, matrix := ⟨identityElements⟩ }

/-- A marker lookup table (`artoolkit.patternMarkers` /
`artoolkit.barcodeMarkers`): an association list from marker UID to heap
reference.  Property assignment overwrites the entry for an existing key and
appends a new entry otherwise. -/
abbrev Table : Type := List (Int × Nat)

/-- JavaScript property read `tbl[u]`: first entry with key `u`. -/
def tblLookup : Table → Int → Option Nat
  | [], _ => none
  | (k, v) :: rest, u => if k = u then some v else tblLookup rest u

/-- JavaScript property write `tbl[u] = r`: replace the entry for `u` if
present, append otherwise. -/
def tblInsert : Table → Int → Nat → Table
  | [], u, r => [(u, r)]
  | (k, v) :: rest, u, r =>
      if k = u then (u, r) :: rest else (k, v) :: tblInsert rest u r

/-- The heap references stored in a table. -/
def tblRefs (tbl : Table) : List Nat :=
  List.map Prod.snd tbl

/-- The keys of a table. -/
def tblKeys (tbl : Table) : List Int :=
  List.map Prod.fst tbl

/-- The state owned by the shim: a heap of `Object3D`s (references are
allocated in order, `nextRef` is the next fresh one) and the two marker
tables. -/
structure ARState where
  objs : Nat → Object3D
  nextRef : Nat
  patternMarkers : Table
  barcodeMarkers : Table

/-- The initial state: `artoolkit.patternMarkers = {}` and
`artoolkit.barcodeMarkers = {}`, no objects allocated yet. -/
def emptyAR : ARState :=
  { objs := fun _ => Object3D.new, nextRef := 0,
    patternMarkers := [], barcodeMarkers := [] }

/-- Mutate the object behind reference `r` in place. -/
def ARState.update (s : ARState) (r : Nat) (f : Object3D → Object3D) : ARState :=
  { s with objs := fun n => if n = r then f (s.objs r) else s.objs n }

/-- Well-formedness of a shim state: every table entry points below the
allocation frontier, and no two table entries (across both tables) share a
heap reference.  Both hold for every state reachable from `emptyAR` through
the shim's operations, since only `createThreeMarker` and
`createThreeBarcodeMarker` add entries and each allocates a fresh object. -/
def ARState.WF (s : ARState) : Prop :=
  (∀ p ∈ s.patternMarkers, p.2 < s.nextRef) ∧
  (∀ p ∈ s.barcodeMarkers, p.2 < s.nextRef) ∧
  (tblRefs s.patternMarkers ++ tblRefs s.barcodeMarkers).Nodup

instance (s : ARState) : Decidable s.WF := by
  unfold ARState.WF
  infer_instance

/-- `artoolkit.createThreeMarker`: allocate a fresh `Object3D`, set
`matrixAutoUpdate = false`, store it in `patternMarkers[markerUID]` and
return it (the returned heap reference). -/
def createThreeMarker (s : ARState) (markerUID : Int) : ARState × Nat :=
  let r := s.nextRef
  let obj : Object3D := { Object3D.new with matrixAutoUpdate := false }
  ({ s with objs := fun n => if n = r then obj else s.objs n,
            nextRef := r + 1,
            patternMarkers := tblInsert s.patternMarkers markerUID r }, r)

/-- `artoolkit.createThreeBarcodeMarker`: same, into `barcodeMarkers`. -/
def createThreeBarcodeMarker (s : ARState) (markerUID : Int) : ARState × Nat :=
  let r := s.nextRef
  let obj : Object3D := { Object3D.new with matrixAutoUpdate := false }
  ({ s with objs := fun n => if n = r then obj else s.objs n,
            nextRef := r + 1,
            barcodeMarkers := tblInsert s.barcodeMarkers markerUID r }, r)

/-- A marker report handed by the tracker to `artoolkit.onGetMarker`,
together with the value `artoolkit.getTransformationMatrix()` returns while
this report is current. -/
structure MarkerReport where
  idPatt : Int
  idMatrix : Int
  transform : List Int
deriving DecidableEq, Repr

/-- The body of each branch of `onGetMarker`:
`obj.matrix.setFromArray(artoolkit.getTransformationMatrix()); obj.visible
= true;` applied to one object, where `t` is the matrix the tracker
returns. -/
def markerShow (t : List Int) (o : Object3D) : Object3D :=
  { o with matrix := (o.matrix.setFromArray t).1, visible := true }

/-- `var obj = tbl[u]; if (obj) { ... }`: one lookup-and-update branch of
`onGetMarker`. -/
def applyLookup (s : ARState) (tbl : Table) (u : Int) (t : List Int) : ARState :=
  match tblLookup tbl u with
  | some r => s.update r (markerShow t)
  | none => s

/-- `artoolkit.onGetMarker(marker)`: look `marker.idPatt` up in
`patternMarkers` and, if found, set the object's matrix from
`getTransformationMatrix()` and make it visible; then do the same for
`marker.idMatrix` in `barcodeMarkers` (read, as in the source, from the
state the first branch produced). -/
def onGetMarker (s : ARState) (m : MarkerReport) : ARState :=
  let s1 := applyLookup s s.patternMarkers m.idPatt m.transform
  applyLookup s1 s1.barcodeMarkers m.idMatrix m.transform

/-- One pass of `for (var i in tbl) { tbl[i].visible = false; }` over the
references of a table. -/
def clearRefs (s : ARState) (rs : List Nat) : ARState :=
  rs.foldl (fun s r => s.update r (fun o => { o with visible := false })) s

/-- The two clearing loops at the top of `process()`: hide every registered
pattern marker and every registered barcode marker. -/
def clearTables (s : ARState) : ARState :=
  clearRefs (clearRefs s (tblRefs s.patternMarkers)) (tblRefs s.barcodeMarkers)

/-- The state of a `ThreeARScene` object that `process()` touches: the shim
state plus the scene camera's projection matrix. -/
structure SceneState where
  ar : ARState
  cameraProjection : Matrix4

/-- `process()`: hide all registered markers, hand the frame to
`artoolkit.process(video)` — which invokes `onGetMarker` once per report the
tracker produces — then copy `artoolkit.getCameraMatrix()` into
`camera.projectionMatrix`.  `reports` and `camMatrix` are the tracker's
output for this frame. -/
def process (st : SceneState) (reports : List MarkerReport) (camMatrix : List Int) :
    SceneState :=
  let s1 := clearTables st.ar
  let s2 := reports.foldl onGetMarker s1
  { ar := s2, cameraProjection := (st.cameraProjection.setFromArray camMatrix).1 }

/-- The renderer calls `renderOn` makes, in order. -/
inductive RenderOp where
  | clearCall : RenderOp
  | renderVideoScene : RenderOp
  | renderMainScene : RenderOp
deriving DecidableEq, Repr

/-- The THREE.js renderer as `renderOn` sees it: its `autoClear` flag and a
log of the calls made on it. -/
structure Renderer where
  autoClear : Bool
  log : List RenderOp
deriving DecidableEq, Repr

/-- The video texture flag `renderOn` sets. -/
structure VideoTexture where
  needsUpdate : Bool
deriving DecidableEq, Repr

/-- `renderOn(renderer)`: mark the video texture dirty, save `autoClear`,
disable it, clear, render the video scene, render the 3D scene, restore
`autoClear`. -/
def renderOn (tex : VideoTexture) (renderer : Renderer) : VideoTexture × Renderer :=
  let tex := { tex with needsUpdate := true }
  let ac := renderer.autoClear
  let renderer := { renderer with autoClear := false }
  let renderer := { renderer with log := renderer.log ++ [RenderOp.clearCall] }
  let renderer := { renderer with log := renderer.log ++ [RenderOp.renderVideoScene] }
  let renderer := { renderer with log := renderer.log ++ [RenderOp.renderMainScene] }
  (tex, { renderer with autoClear := ac })

/-- The two events the initialisation of `getUserMediaThreeScene` waits
for: the video element's `loadedmetadata` event and the tracker's
`onReady` callback.  Both are wired to the same `initProgress` closure. -/
inductive InitEvent where
  | loadedmetadata : InitEvent
  | trackerReady : InitEvent
deriving DecidableEq, Repr

/-- The closure state of the handshake: the `initWaitCount` counter (a
JavaScript number, so it can go negative) and how many times `completeInit`
— and hence `onSuccess`, which `completeInit` calls after
`artoolkit.setup` and `artoolkit.createThreeScene` — has run. -/
structure InitState where
  initWaitCount : Int
  completeInitCalls : Nat
  onSuccessCalls : Nat
deriving DecidableEq, Repr

/-- `initProgress`: decrement the counter; when it reaches exactly 0, call
`completeInit` (which calls `onSuccess`). -/
def initProgress (st : InitState) : InitState :=
  let w := st.initWaitCount - 1
  if w = 0 then
    { initWaitCount := w,
      completeInitCalls := st.completeInitCalls + 1,
      onSuccessCalls := st.onSuccessCalls + 1 }
  else
    { st with initWaitCount := w }

/-- The handshake state after a trace of ready events, starting from
`initWaitCount = 2` and no calls.  Each event — whichever of the two it is —
invokes `initProgress` once. -/
def initRun (events : List InitEvent) : InitState :=
  events.foldl (fun st _ => initProgress st)
    { initWaitCount := 2, completeInitCalls := 0, onSuccessCalls := 0 }

/-- The error handler `getUserMediaThreeScene` ends up using: the caller's,
or the substituted `console.log` default when the caller passed none. -/
inductive ErrHandler where
  | userHandler : ErrHandler
  | defaultHandler : ErrHandler
deriving DecidableEq, Repr

/-- `if (!onError) { onError = function(err) { console.log(...) }; }` -/
def resolveOnError : Option ErrHandler → ErrHandler
  | none => ErrHandler.defaultHandler
  | some h => h

/-- The observable outcome of a call to `getUserMediaThreeScene` before any
asynchronous callback fires: which error-handler invocations happened (with
their argument), how many times `onSuccess` ran, and whether
`navigator.getUserMedia` was invoked. -/
structure GUMOutcome where
  onErrorCalls : List (ErrHandler × String)
  onSuccessCalls : Nat
  requestedUserMedia : Bool
deriving DecidableEq, Repr

/-- `artoolkit.getUserMediaThreeScene`: substitute the default error
handler if none was given; if some `getUserMedia` implementation exists
(native or a vendor-prefixed one), request the stream — `onSuccess` can only
fire later, through the handshake; otherwise call `onError('')`
synchronously and never request a stream. -/
def getUserMediaThreeScene (gumAvailable : Bool) (onErrorArg : Option ErrHandler) :
    GUMOutcome :=
  let onError := resolveOnError onErrorArg
  if gumAvailable then
    { onErrorCalls := [], onSuccessCalls := 0, requestedUserMedia := true }
  else
    { onErrorCalls := [(onError, "")], onSuccessCalls := 0, requestedUserMedia := false }

/-! ## Lemmas about tables -/

theorem tblLookup_insert_self (tbl : Table) (u : Int) (r : Nat) :
    tblLookup (tblInsert tbl u r) u = some r := by
  induction tbl with
  | nil => simp [tblInsert, tblLookup]
  | cons p rest ih =>
      obtain ⟨k, v⟩ := p
      by_cases h : k = u
      · simp [tblInsert, h, tblLookup]
      · simp [tblInsert, h, tblLookup, ih]

theorem tblLookup_mem {tbl : Table} {u : Int} {r : Nat}
    (h : tblLookup tbl u = some r) : (u, r) ∈ tbl := by
  induction tbl with
  | nil => simp [tblLookup] at h
  | cons p rest ih =>
      obtain ⟨k, v⟩ := p
      by_cases hk : k = u
      · subst hk
        simp [tblLookup] at h
        simp [h]
      · simp only [tblLookup, if_neg hk] at h
        exact List.mem_cons_of_mem _ (ih h)

theorem mem_tblRefs {tbl : Table} {u : Int} {r : Nat} (h : (u, r) ∈ tbl) :
    r ∈ tblRefs tbl := by
  unfold tblRefs
  exact List.mem_map_of_mem Prod.snd h

theorem tbl_key_unique {tbl : Table} (hnd : (tblRefs tbl).Nodup)
    {u k : Int} {r : Nat} (hu : (u, r) ∈ tbl) (hk : (k, r) ∈ tbl) : u = k := by
  have := List.inj_on_of_nodup_map (f := Prod.snd) hnd hu hk rfl
  exact congrArg Prod.fst this

theorem tblLookup_of_nodup_unique {tbl : Table} (hnd : (tblRefs tbl).Nodup)
    {u k : Int} {r : Nat} (hu : tblLookup tbl u = some r)
    (hk : tblLookup tbl k = some r) : u = k :=
  tbl_key_unique hnd (tblLookup_mem hu) (tblLookup_mem hk)

/-! ## Lemmas about state updates -/

@[simp] theorem ARState.update_patternMarkers (s : ARState) (r : Nat)
    (f : Object3D → Object3D) : (s.update r f).patternMarkers = s.patternMarkers := rfl

@[simp] theorem ARState.update_barcodeMarkers (s : ARState) (r : Nat)
    (f : Object3D → Object3D) : (s.update r f).barcodeMarkers = s.barcodeMarkers := rfl

@[simp] theorem ARState.update_nextRef (s : ARState) (r : Nat)
    (f : Object3D → Object3D) : (s.update r f).nextRef = s.nextRef := rfl

theorem ARState.update_objs_self (s : ARState) (r : Nat) (f : Object3D → Object3D) :
    (s.update r f).objs r = f (s.objs r) := by
  simp [ARState.update]

theorem ARState.update_objs_ne (s : ARState) {n r : Nat} (f : Object3D → Object3D)
    (h : n ≠ r) : (s.update r f).objs n = s.objs n := by
  simp [ARState.update, h]

theorem ARState.update_objs (s : ARState) (n r : Nat) (f : Object3D → Object3D) :
    (s.update r f).objs n = if n = r then f (s.objs r) else s.objs n := by
  simp [ARState.update]

/-! ## Lemmas about `markerShow`, `applyLookup` and `onGetMarker` -/

@[simp] theorem markerShow_visible (t : List Int) (o : Object3D) :
    (markerShow t o).visible = true := rfl

@[simp] theorem markerShow_matrixAutoUpdate (t : List Int) (o : Object3D) :
    (markerShow t o).matrixAutoUpdate = o.matrixAutoUpdate := rfl

@[simp] theorem markerShow_matrix (t : List Int) (o : Object3D) :
    (markerShow t o).matrix = (o.matrix.setFromArray t).1 := rfl

theorem typedArraySet_idem (d s : List Int) :
    typedArraySet (typedArraySet d s) s = typedArraySet d s := by
  unfold typedArraySet
  rw [List.drop_left]

theorem markerShow_idem (t : List Int) (o : Object3D) :
    markerShow t (markerShow t o) = markerShow t o := by
  unfold markerShow Matrix4.setFromArray
  simp [typedArraySet_idem]

@[simp] theorem applyLookup_patternMarkers (s : ARState) (tbl : Table) (u : Int)
    (t : List Int) : (applyLookup s tbl u t).patternMarkers = s.patternMarkers := by
  unfold applyLookup
  cases tblLookup tbl u <;> rfl

@[simp] theorem applyLookup_barcodeMarkers (s : ARState) (tbl : Table) (u : Int)
    (t : List Int) : (applyLookup s tbl u t).barcodeMarkers = s.barcodeMarkers := by
  unfold applyLookup
  cases tblLookup tbl u <;> rfl

@[simp] theorem applyLookup_nextRef (s : ARState) (tbl : Table) (u : Int)
    (t : List Int) : (applyLookup s tbl u t).nextRef = s.nextRef := by
  unfold applyLookup
  cases tblLookup tbl u <;> rfl

theorem applyLookup_objs (s : ARState) (tbl : Table) (u : Int) (t : List Int)
    (r : Nat) :
    (applyLookup s tbl u t).objs r =
      if tblLookup tbl u = some r then markerShow t (s.objs r) else s.objs r := by
  unfold applyLookup
  cases h : tblLookup tbl u with
  | none => simp [h]
  | some r' =>
      by_cases hr : r = r'
      · subst hr
        simp [ARState.update_objs_self]
      · rw [ARState.update_objs_ne _ _ hr]
        have : ¬ (some r' = some r) := by
          simp
          exact fun hh => hr hh.symm
        simp [this]

@[simp] theorem onGetMarker_patternMarkers (s : ARState) (m : MarkerReport) :
    (onGetMarker s m).patternMarkers = s.patternMarkers := by
  unfold onGetMarker
  simp

@[simp] theorem onGetMarker_barcodeMarkers (s : ARState) (m : MarkerReport) :
    (onGetMarker s m).barcodeMarkers = s.barcodeMarkers := by
  unfold onGetMarker
  simp

@[simp] theorem onGetMarker_nextRef (s : ARState) (m : MarkerReport) :
    (onGetMarker s m).nextRef = s.nextRef := by
  unfold onGetMarker
  simp

theorem onGetMarker_objs (s : ARState) (m : MarkerReport) (r : Nat) :
    (onGetMarker s m).objs r =
      (if tblLookup s.barcodeMarkers m.idMatrix = some r then markerShow m.transform
       else id)
      ((if tblLookup s.patternMarkers m.idPatt = some r then markerShow m.transform
        else id) (s.objs r)) := by
  unfold onGetMarker
  rw [applyLookup_objs, applyLookup_barcodeMarkers, applyLookup_objs]
  by_cases hb : tblLookup s.barcodeMarkers m.idMatrix = some r <;>
    by_cases hp : tblLookup s.patternMarkers m.idPatt = some r <;>
    simp [hb, hp]

/-- Report `m` touches reference `r`: one of the two lookups in
`onGetMarker` finds `r`. -/
def hits (s : ARState) (m : MarkerReport) (r : Nat) : Prop :=
  tblLookup s.patternMarkers m.idPatt = some r ∨
  tblLookup s.barcodeMarkers m.idMatrix = some r

instance (s : ARState) (m : MarkerReport) (r : Nat) : Decidable (hits s m r) := by
  unfold hits
  infer_instance

theorem onGetMarker_objs_of_not_hits {s : ARState} {m : MarkerReport} {r : Nat}
    (h : ¬ hits s m r) : (onGetMarker s m).objs r = s.objs r := by
  unfold hits at h
  push_neg at h
  rw [onGetMarker_objs]
  simp [h.1, h.2]

theorem onGetMarker_visible_of_hits {s : ARState} {m : MarkerReport} {r : Nat}
    (h : hits s m r) : ((onGetMarker s m).objs r).visible = true := by
  rw [onGetMarker_objs]
  rcases h with h | h
  · by_cases hb : tblLookup s.barcodeMarkers m.idMatrix = some r <;> simp [h, hb]
  · simp [h]

theorem onGetMarker_visible_iff (s : ARState) (m : MarkerReport) (r : Nat) :
    ((onGetMarker s m).objs r).visible = true ↔
      hits s m r ∨ (s.objs r).visible = true := by
  by_cases h : hits s m r
  · simp [h, onGetMarker_visible_of_hits h]
  · rw [onGetMarker_objs_of_not_hits h]
    simp [h]

theorem onGetMarker_matrixAutoUpdate (s : ARState) (m : MarkerReport) (r : Nat) :
    ((onGetMarker s m).objs r).matrixAutoUpdate = (s.objs r).matrixAutoUpdate := by
  rw [onGetMarker_objs]
  by_cases hb : tblLookup s.barcodeMarkers m.idMatrix = some r <;>
    by_cases hp : tblLookup s.patternMarkers m.idPatt = some r <;>
    simp [hb, hp]

theorem hits_onGetMarker (s : ARState) (m m' : MarkerReport) (r : Nat) :
    hits (onGetMarker s m') m r ↔ hits s m r := by
  unfold hits
  rw [onGetMarker_patternMarkers, onGetMarker_barcodeMarkers]

/-! ## Lemmas about `artoolkit.process(video)`'s callback fold -/

theorem foldl_onGetMarker_patternMarkers (ms : List MarkerReport) (s : ARState) :
    (ms.foldl onGetMarker s).patternMarkers = s.patternMarkers := by
  induction ms generalizing s with
  | nil => rfl
  | cons m rest ih => rw [List.foldl_cons, ih, onGetMarker_patternMarkers]

theorem foldl_onGetMarker_barcodeMarkers (ms : List MarkerReport) (s : ARState) :
    (ms.foldl onGetMarker s).barcodeMarkers = s.barcodeMarkers := by
  induction ms generalizing s with
  | nil => rfl
  | cons m rest ih => rw [List.foldl_cons, ih, onGetMarker_barcodeMarkers]

theorem foldl_onGetMarker_nextRef (ms : List MarkerReport) (s : ARState) :
    (ms.foldl onGetMarker s).nextRef = s.nextRef := by
  induction ms generalizing s with
  | nil => rfl
  | cons m rest ih => rw [List.foldl_cons, ih, onGetMarker_nextRef]

theorem foldl_onGetMarker_matrixAutoUpdate (ms : List MarkerReport) (s : ARState)
    (r : Nat) :
    ((ms.foldl onGetMarker s).objs r).matrixAutoUpdate =
      (s.objs r).matrixAutoUpdate := by
  induction ms generalizing s with
  | nil => rfl
  | cons m rest ih => rw [List.foldl_cons, ih, onGetMarker_matrixAutoUpdate]

theorem foldl_onGetMarker_visible_iff (ms : List MarkerReport) (s : ARState)
    (r : Nat) :
    ((ms.foldl onGetMarker s).objs r).visible = true ↔
      (s.objs r).visible = true ∨ ∃ m ∈ ms, hits s m r := by
  induction ms generalizing s with
  | nil => simp
  | cons m rest ih =>
      rw [List.foldl_cons, ih]
      simp only [hits_onGetMarker, onGetMarker_visible_iff, List.mem_cons]
      constructor
      · rintro ((h | h) | ⟨m', hm', h⟩)
        · exact Or.inr ⟨m, Or.inl rfl, h⟩
        · exact Or.inl h
        · exact Or.inr ⟨m', Or.inr hm', h⟩
      · rintro (h | ⟨m', hm' | hm', h⟩)
        · exact Or.inl (Or.inr h)
        · subst hm'
          exact Or.inl (Or.inl h)
        · exact Or.inr ⟨m', hm', h⟩

/-! ## Lemmas about the clearing loops -/

theorem clearRefs_nil (s : ARState) : clearRefs s [] = s := rfl

theorem clearRefs_cons (s : ARState) (a : Nat) (rest : List Nat) :
    clearRefs s (a :: rest) =
      clearRefs (s.update a (fun o => { o with visible := false })) rest := rfl

@[simp] theorem clearRefs_patternMarkers (s : ARState) (rs : List Nat) :
    (clearRefs s rs).patternMarkers = s.patternMarkers := by
  induction rs generalizing s with
  | nil => rfl
  | cons a rest ih => rw [clearRefs_cons, ih, ARState.update_patternMarkers]

@[simp] theorem clearRefs_barcodeMarkers (s : ARState) (rs : List Nat) :
    (clearRefs s rs).barcodeMarkers = s.barcodeMarkers := by
  induction rs generalizing s with
  | nil => rfl
  | cons a rest ih => rw [clearRefs_cons, ih, ARState.update_barcodeMarkers]

@[simp] theorem clearRefs_nextRef (s : ARState) (rs : List Nat) :
    (clearRefs s rs).nextRef = s.nextRef := by
  induction rs generalizing s with
  | nil => rfl
  | cons a rest ih => rw [clearRefs_cons, ih, ARState.update_nextRef]

theorem clearRefs_objs (s : ARState) (rs : List Nat) (r : Nat) :
    (clearRefs s rs).objs r =
      if r ∈ rs then { s.objs r with visible := false } else s.objs r := by
  induction rs generalizing s with
  | nil => simp [clearRefs_nil]
  | cons a rest ih =>
      rw [clearRefs_cons, ih, ARState.update_objs]
      by_cases hr : r = a
      · subst hr
        by_cases hm : r ∈ rest <;> simp [hm]
      · by_cases hm : r ∈ rest <;> simp [hm, hr, List.mem_cons]

@[simp] theorem clearTables_patternMarkers (s : ARState) :
    (clearTables s).patternMarkers = s.patternMarkers := by
  unfold clearTables
  simp

@[simp] theorem clearTables_barcodeMarkers (s : ARState) :
    (clearTables s).barcodeMarkers = s.barcodeMarkers := by
  unfold clearTables
  simp

@[simp] theorem clearTables_nextRef (s : ARState) :
    (clearTables s).nextRef = s.nextRef := by
  unfold clearTables
  simp

theorem clearTables_objs (s : ARState) (r : Nat) :
    (clearTables s).objs r =
      if r ∈ tblRefs s.patternMarkers ++ tblRefs s.barcodeMarkers then
        { s.objs r with visible := false }
      else s.objs r := by
  unfold clearTables
  rw [clearRefs_objs, clearRefs_objs]
  by_cases hb : r ∈ tblRefs s.barcodeMarkers <;>
    by_cases hp : r ∈ tblRefs s.patternMarkers <;>
    simp [hb, hp, List.mem_append]

/-! ## Lemmas about the initialisation handshake -/

theorem initRun_append_singleton (es : List InitEvent) (e : InitEvent) :
    initRun (es ++ [e]) = initProgress (initRun es) := by
  unfold initRun
  rw [List.foldl_append]
  rfl

theorem initProgress_initWaitCount (st : InitState) :
    (initProgress st).initWaitCount = st.initWaitCount - 1 := by
  unfold initProgress
  by_cases h : st.initWaitCount - 1 = 0 <;> simp [h]

theorem initProgress_completeInitCalls (st : InitState) :
    (initProgress st).completeInitCalls =
      if st.initWaitCount - 1 = 0 then st.completeInitCalls + 1
      else st.completeInitCalls := by
  unfold initProgress
  by_cases h : st.initWaitCount - 1 = 0 <;> simp [h]

theorem initProgress_onSuccessCalls (st : InitState) :
    (initProgress st).onSuccessCalls =
      if st.initWaitCount - 1 = 0 then st.onSuccessCalls + 1
      else st.onSuccessCalls := by
  unfold initProgress
  by_cases h : st.initWaitCount - 1 = 0 <;> simp [h]

theorem initRun_spec (events : List InitEvent) :
    (initRun events).completeInitCalls = (if 2 ≤ events.length then 1 else 0) ∧
    (initRun events).onSuccessCalls = (if 2 ≤ events.length then 1 else 0) ∧
    (initRun events).initWaitCount = 2 - (events.length : Int) := by
  induction events using List.reverseRecOn with
  | nil => exact ⟨rfl, rfl, rfl⟩
  | append_singleton es e ih =>
      obtain ⟨hc, ho, hw⟩ := ih
      rw [initRun_append_singleton, initProgress_completeInitCalls,
        initProgress_onSuccessCalls, initProgress_initWaitCount, hw, hc, ho]
      simp only [List.length_append, List.length_cons, List.length_nil]
      refine ⟨?_, ?_, ?_⟩ <;> try split_ifs
      all_goals omega

theorem length_eq_counts (events : List InitEvent) :
    events.length =
      events.count InitEvent.loadedmetadata + events.count InitEvent.trackerReady := by
  induction events with
  | nil => rfl
  | cons e rest ih =>
      cases e <;> simp [List.count_cons, ih] <;> omega

/-- C1: the initialisation of `getUserMediaThreeScene` is a two-event
handshake.  Over any trace in which the video's `loadedmetadata` event and
the tracker's `onReady` callback each fire exactly once (in either order),
`completeInit` — which runs `artoolkit.setup`, `artoolkit.createThreeScene`
and then `onSuccess` — runs exactly once, and on every prefix of the trace
in which the two events have not both fired, neither `completeInit` nor
`onSuccess` has run. -/
theorem getUserMediaThreeScene_handshake (events : List InitEvent)
    (hcam : events.count InitEvent.loadedmetadata = 1)
    (htrk : events.count InitEvent.trackerReady = 1) :
    (initRun events).completeInitCalls = 1 ∧
    (initRun events).onSuccessCalls = 1 ∧
    ∀ p, p <+: events →
      ¬(InitEvent.loadedmetadata ∈ p ∧ InitEvent.trackerReady ∈ p) →
      (initRun p).completeInitCalls = 0 ∧ (initRun p).onSuccessCalls = 0 := by
  have hlen : events.length = 2 := by
    rw [length_eq_counts, hcam, htrk]
  obtain ⟨hc, ho, _⟩ := initRun_spec events
  refine ⟨by simp [hc, hlen], by simp [ho, hlen], ?_⟩
  intro p hp hnot
  obtain ⟨hcp, hop, _⟩ := initRun_spec p
  have hple : p.length ≤ events.length := hp.length_le
  have hpl : p.length < 2 := by
    rcases Nat.lt_or_ge p.length 2 with h | h
    · exact h
    · exfalso
      have hpe : p = events := hp.eq_of_length (by omega)
      subst hpe
      refine hnot ⟨?_, ?_⟩
      · have : 0 < p.count InitEvent.loadedmetadata := by omega
        exact List.count_pos_iff.1 this
      · have : 0 < p.count InitEvent.trackerReady := by omega
        exact List.count_pos_iff.1 this
  constructor
  · rw [hcp, if_neg (by omega)]
  · rw [hop, if_neg (by omega)]

/-- Witness for C1 at the concrete trace camera-then-tracker, with the
proper prefix where only the camera is ready. -/
theorem getUserMediaThreeScene_handshake_witness :
    (initRun [InitEvent.loadedmetadata, InitEvent.trackerReady]).completeInitCalls = 1 ∧
    (initRun [InitEvent.loadedmetadata]).onSuccessCalls = 0 := by
  have h := getUserMediaThreeScene_handshake
    [InitEvent.loadedmetadata, InitEvent.trackerReady] (by decide) (by decide)
  refine ⟨h.1, ?_⟩
  exact (h.2.2 [InitEvent.loadedmetadata] ⟨[InitEvent.trackerReady], rfl⟩ (by decide)).2

/-- C5: `renderOn` renders the video background scene strictly before the
3D scene (after one `clear`), and restores the renderer's `autoClear` flag
to whatever value it had on entry; it also marks the video texture dirty. -/
theorem renderOn_spec (tex : VideoTexture) (renderer : Renderer) :
    (renderOn tex renderer).2.log =
      renderer.log ++
        [RenderOp.clearCall, RenderOp.renderVideoScene, RenderOp.renderMainScene] ∧
    (renderOn tex renderer).2.autoClear = renderer.autoClear ∧
    (renderOn tex renderer).1.needsUpdate = true := by
  unfold renderOn
  simp

/-- C6: with no `getUserMedia` implementation available,
`getUserMediaThreeScene` synchronously calls the error handler with the
empty string, never calls `onSuccess`, never requests a stream; and when the
caller passed no `onError`, the handler invoked is the substituted default
logging handler, not a missing callback. -/
theorem getUserMediaThreeScene_error_path (onErrorArg : Option ErrHandler) :
    (getUserMediaThreeScene false onErrorArg).onErrorCalls =
      [(resolveOnError onErrorArg, "")] ∧
    (getUserMediaThreeScene false onErrorArg).onSuccessCalls = 0 ∧
    (getUserMediaThreeScene false onErrorArg).requestedUserMedia = false ∧
    resolveOnError none = ErrHandler.defaultHandler :=
  ⟨rfl, rfl, rfl, rfl⟩

/-- Shared helper: on 16-element inputs, `setFromArray` makes `elements`
exactly the source array. -/
theorem setFromArray_elements {mat : Matrix4} {a : List Int}
    (ha : a.length = 16) (hm : mat.elements.length = 16) :
    (mat.setFromArray a).1.elements = a := by
  unfold Matrix4.setFromArray typedArraySet
  have : mat.elements.drop a.length = [] :=
    List.drop_eq_nil_of_le (by omega)
  simp [this]

/-- C8: `setFromArray` copies the 16 source values into `elements` in
order, but the call evaluates to the result of `elements.set(m)` — the
JavaScript value `undefined` — never to the matrix, so it cannot be
chained. -/
theorem setFromArray_spec (mat : Matrix4) (a : List Int)
    (ha : a.length = 16) (hm : mat.elements.length = 16) :
    (mat.setFromArray a).1.elements = a ∧
    (mat.setFromArray a).2 = JSValue.undefinedVal ∧
    ∀ v : List Int, (mat.setFromArray a).2 ≠ JSValue.matrixVal v :=
  ⟨setFromArray_elements ha hm, rfl, fun _ h => JSValue.noConfusion h⟩

/-- Witness for C8 on a concrete matrix and source array. -/
theorem setFromArray_spec_witness :
    (List.replicate 16 (7 : Int)).length = 16 ∧
    ((⟨identityElements⟩ : Matrix4).setFromArray (List.replicate 16 7)).1.elements =
      List.replicate 16 7 :=
  ⟨by decide,
    (setFromArray_spec ⟨identityElements⟩ (List.replicate 16 7)
      (by decide) (by decide)).1⟩

/-- `process` projections. -/
theorem process_ar (st : SceneState) (reports : List MarkerReport)
    (camMatrix : List Int) :
    (process st reports camMatrix).ar =
      reports.foldl onGetMarker (clearTables st.ar) := rfl

theorem process_cameraProjection_eq (st : SceneState) (reports : List MarkerReport)
    (camMatrix : List Int) :
    (process st reports camMatrix).cameraProjection =
      (st.cameraProjection.setFromArray camMatrix).1 := rfl

/-- C4: every `process()` call ends by copying
`artoolkit.getCameraMatrix()` into the scene camera's projection matrix:
on 16-element matrices the projection matrix afterwards holds exactly the
tracker's camera matrix. -/
theorem process_sets_cameraProjection (st : SceneState) (reports : List MarkerReport)
    (camMatrix : List Int) (hc : camMatrix.length = 16)
    (hp : st.cameraProjection.elements.length = 16) :
    (process st reports camMatrix).cameraProjection.elements = camMatrix := by
  rw [process_cameraProjection_eq]
  exact setFromArray_elements hc hp

/-! ## More table and state helpers -/

theorem tblLookup_insert_ne (tbl : Table) {u k : Int} (r : Nat) (h : k ≠ u) :
    tblLookup (tblInsert tbl u r) k = tblLookup tbl k := by
  have hne : u ≠ k := fun hh => h hh.symm
  induction tbl with
  | nil =>
      show (if u = k then some r else tblLookup [] k) = tblLookup [] k
      rw [if_neg hne]
  | cons p rest ih =>
      obtain ⟨k', v⟩ := p
      by_cases hk : k' = u
      · subst hk
        have h1 : tblInsert ((k', v) :: rest) k' r = (k', r) :: rest := by
          simp [tblInsert]
        rw [h1]
        show (if k' = k then some r else tblLookup rest k) =
          (if k' = k then some v else tblLookup rest k)
        rw [if_neg hne, if_neg hne]
      · have h1 : tblInsert ((k', v) :: rest) u r = (k', v) :: tblInsert rest u r := by
          simp [tblInsert, hk]
        rw [h1]
        show (if k' = k then some v else tblLookup (tblInsert rest u r) k) =
          (if k' = k then some v else tblLookup rest k)
        rw [ih]

theorem tblLookup_lt_of_WF_pattern {s : ARState} (hwf : s.WF) {k : Int} {r : Nat}
    (h : tblLookup s.patternMarkers k = some r) : r < s.nextRef :=
  hwf.1 _ (tblLookup_mem h)

theorem tblLookup_lt_of_WF_barcode {s : ARState} (hwf : s.WF) {k : Int} {r : Nat}
    (h : tblLookup s.barcodeMarkers k = some r) : r < s.nextRef :=
  hwf.2.1 _ (tblLookup_mem h)

theorem fresh_not_mem {s : ARState} (hwf : s.WF) :
    s.nextRef ∉ tblRefs s.patternMarkers ++ tblRefs s.barcodeMarkers := by
  intro hmem
  rcases List.mem_append.1 hmem with h | h
  · obtain ⟨p, hp, hpr⟩ := List.mem_map.1 h
    have := hwf.1 p hp
    omega
  · obtain ⟨p, hp, hpr⟩ := List.mem_map.1 h
    have := hwf.2.1 p hp
    omega

theorem clearTables_visible_of_mem {s : ARState} {r : Nat}
    (h : r ∈ tblRefs s.patternMarkers ++ tblRefs s.barcodeMarkers) :
    ((clearTables s).objs r).visible = false := by
  rw [clearTables_objs, if_pos h]

theorem clearTables_matrixAutoUpdate (s : ARState) (r : Nat) :
    ((clearTables s).objs r).matrixAutoUpdate = (s.objs r).matrixAutoUpdate := by
  rw [clearTables_objs]
  split <;> rfl

@[simp] theorem createThreeMarker_patternMarkers (s : ARState) (u : Int) :
    (createThreeMarker s u).1.patternMarkers =
      tblInsert s.patternMarkers u s.nextRef := rfl

@[simp] theorem createThreeMarker_barcodeMarkers (s : ARState) (u : Int) :
    (createThreeMarker s u).1.barcodeMarkers = s.barcodeMarkers := rfl

@[simp] theorem createThreeMarker_nextRef (s : ARState) (u : Int) :
    (createThreeMarker s u).1.nextRef = s.nextRef + 1 := rfl

@[simp] theorem createThreeMarker_ref (s : ARState) (u : Int) :
    (createThreeMarker s u).2 = s.nextRef := rfl

theorem createThreeMarker_objs (s : ARState) (u : Int) (n : Nat) :
    (createThreeMarker s u).1.objs n =
      if n = s.nextRef then { Object3D.new with matrixAutoUpdate := false }
      else s.objs n := rfl

@[simp] theorem createThreeBarcodeMarker_patternMarkers (s : ARState) (u : Int) :
    (createThreeBarcodeMarker s u).1.patternMarkers = s.patternMarkers := rfl

@[simp] theorem createThreeBarcodeMarker_barcodeMarkers (s : ARState) (u : Int) :
    (createThreeBarcodeMarker s u).1.barcodeMarkers =
      tblInsert s.barcodeMarkers u s.nextRef := rfl

@[simp] theorem createThreeBarcodeMarker_nextRef (s : ARState) (u : Int) :
    (createThreeBarcodeMarker s u).1.nextRef = s.nextRef + 1 := rfl

@[simp] theorem createThreeBarcodeMarker_ref (s : ARState) (u : Int) :
    (createThreeBarcodeMarker s u).2 = s.nextRef := rfl

theorem createThreeBarcodeMarker_objs (s : ARState) (u : Int) (n : Nat) :
    (createThreeBarcodeMarker s u).1.objs n =
      if n = s.nextRef then { Object3D.new with matrixAutoUpdate := false }
      else s.objs n := rfl

/-- A small reachable state for concrete checks: one pattern marker with
UID 3 (reference 0) and one barcode marker with UID 20 (reference 1). -/
def demoState : ARState :=
  (createThreeBarcodeMarker (createThreeMarker emptyAR 3).1 20).1

/-- A `ThreeARScene` over `demoState`. -/
def demoScene : SceneState :=
  { ar := demoState, cameraProjection := ⟨identityElements⟩ }

/-- C2: for every marker report, if `patternMarkers` has the report's
`idPatt` key then that object's matrix is set from
`artoolkit.getTransformationMatrix()` and it becomes visible; likewise for
`barcodeMarkers` at `idMatrix`; and when neither table has the respective
key, `onGetMarker` leaves the state — every object included — untouched. -/
theorem onGetMarker_spec (s : ARState) (m : MarkerReport) :
    (∀ r, tblLookup s.patternMarkers m.idPatt = some r →
       ((onGetMarker s m).objs r).matrix =
          ((s.objs r).matrix.setFromArray m.transform).1 ∧
       ((onGetMarker s m).objs r).visible = true) ∧
    (∀ r, tblLookup s.barcodeMarkers m.idMatrix = some r →
       ((onGetMarker s m).objs r).matrix =
          ((s.objs r).matrix.setFromArray m.transform).1 ∧
       ((onGetMarker s m).objs r).visible = true) ∧
    (tblLookup s.patternMarkers m.idPatt = none →
     tblLookup s.barcodeMarkers m.idMatrix = none →
     onGetMarker s m = s) := by
  refine ⟨?_, ?_, ?_⟩
  · intro r hp
    rw [onGetMarker_objs]
    by_cases hb : tblLookup s.barcodeMarkers m.idMatrix = some r
    · simp [hp, hb, markerShow_idem]
    · simp [hp, hb]
  · intro r hb
    rw [onGetMarker_objs]
    by_cases hp : tblLookup s.patternMarkers m.idPatt = some r
    · simp [hp, hb, markerShow_idem]
    · simp [hp, hb]
  · intro hp hb
    show applyLookup (applyLookup s s.patternMarkers m.idPatt m.transform)
        (applyLookup s s.patternMarkers m.idPatt m.transform).barcodeMarkers
        m.idMatrix m.transform = s
    have h1 : applyLookup s s.patternMarkers m.idPatt m.transform = s := by
      unfold applyLookup
      rw [hp]
    rw [h1]
    unfold applyLookup
    rw [hb]

/-- Witness for C2 on `demoState` and a report for pattern UID 3. -/
theorem onGetMarker_spec_witness :
    ((onGetMarker demoState ⟨3, 20, List.replicate 16 5⟩).objs 0).visible = true ∧
    ((onGetMarker demoState ⟨3, 20, List.replicate 16 5⟩).objs 0).matrix =
      ((demoState.objs 0).matrix.setFromArray (List.replicate 16 5)).1 := by
  have h := (onGetMarker_spec demoState ⟨3, 20, List.replicate 16 5⟩).1 0 (by decide)
  exact ⟨h.2, h.1⟩

/-- C10: the per-frame operations never change which UIDs are tracked:
`process` and `onGetMarker` leave both tables (all their entries) and the
allocation frontier unchanged, and never touch any object's
`matrixAutoUpdate`; only the `create*Marker` functions change the tables. -/
theorem perFrame_tables_stable (st : SceneState) (reports : List MarkerReport)
    (camMatrix : List Int) (s : ARState) (m : MarkerReport) :
    (process st reports camMatrix).ar.patternMarkers = st.ar.patternMarkers ∧
    (process st reports camMatrix).ar.barcodeMarkers = st.ar.barcodeMarkers ∧
    (process st reports camMatrix).ar.nextRef = st.ar.nextRef ∧
    (∀ r, ((process st reports camMatrix).ar.objs r).matrixAutoUpdate =
       (st.ar.objs r).matrixAutoUpdate) ∧
    (onGetMarker s m).patternMarkers = s.patternMarkers ∧
    (onGetMarker s m).barcodeMarkers = s.barcodeMarkers ∧
    (onGetMarker s m).nextRef = s.nextRef ∧
    (∀ r, ((onGetMarker s m).objs r).matrixAutoUpdate =
       (s.objs r).matrixAutoUpdate) := by
  refine ⟨?_, ?_, ?_, ?_, onGetMarker_patternMarkers s m, onGetMarker_barcodeMarkers s m,
    onGetMarker_nextRef s m, fun r => onGetMarker_matrixAutoUpdate s m r⟩
  · rw [process_ar, foldl_onGetMarker_patternMarkers, clearTables_patternMarkers]
  · rw [process_ar, foldl_onGetMarker_barcodeMarkers, clearTables_barcodeMarkers]
  · rw [process_ar, foldl_onGetMarker_nextRef, clearTables_nextRef]
  · intro r
    rw [process_ar, foldl_onGetMarker_matrixAutoUpdate, clearTables_matrixAutoUpdate]

/-- C3: `process()` hides every registered marker object before the frame
is handed to the tracker, so after `process()` a registered marker object
is visible exactly when the tracker reported its UID during that call
(pattern markers by `idPatt`, barcode markers by `idMatrix`). -/
theorem process_visibility (st : SceneState) (reports : List MarkerReport)
    (camMatrix : List Int) (hwf : st.ar.WF) :
    (∀ u r, (tblLookup st.ar.patternMarkers u = some r ∨
             tblLookup st.ar.barcodeMarkers u = some r) →
       ((clearTables st.ar).objs r).visible = false) ∧
    (∀ u r, tblLookup st.ar.patternMarkers u = some r →
       (((process st reports camMatrix).ar.objs r).visible = true ↔
         ∃ m ∈ reports, m.idPatt = u)) ∧
    (∀ u r, tblLookup st.ar.barcodeMarkers u = some r →
       (((process st reports camMatrix).ar.objs r).visible = true ↔
         ∃ m ∈ reports, m.idMatrix = u)) := by
  obtain ⟨hndp, hndb, hdisj⟩ := List.nodup_append.1 hwf.2.2
  refine ⟨?_, ?_, ?_⟩
  · intro u r hu
    refine clearTables_visible_of_mem (List.mem_append.2 ?_)
    rcases hu with hu | hu
    · exact Or.inl (mem_tblRefs (tblLookup_mem hu))
    · exact Or.inr (mem_tblRefs (tblLookup_mem hu))
  · intro u r hu
    have hrp : r ∈ tblRefs st.ar.patternMarkers := mem_tblRefs (tblLookup_mem hu)
    have hvis : ((clearTables st.ar).objs r).visible = false :=
      clearTables_visible_of_mem (List.mem_append.2 (Or.inl hrp))
    rw [process_ar, foldl_onGetMarker_visible_iff, hvis]
    constructor
    · rintro (h | ⟨m, hm, hhit⟩)
      · cases h
      · unfold hits at hhit
        rw [clearTables_patternMarkers, clearTables_barcodeMarkers] at hhit
        rcases hhit with hh | hh
        · exact ⟨m, hm, tblLookup_of_nodup_unique hndp hh hu⟩
        · exact absurd (mem_tblRefs (tblLookup_mem hh)) (hdisj hrp)
    · rintro ⟨m, hm, hid⟩
      refine Or.inr ⟨m, hm, ?_⟩
      unfold hits
      rw [clearTables_patternMarkers]
      exact Or.inl (hid ▸ hu)
  · intro u r hu
    have hrb : r ∈ tblRefs st.ar.barcodeMarkers := mem_tblRefs (tblLookup_mem hu)
    have hvis : ((clearTables st.ar).objs r).visible = false :=
      clearTables_visible_of_mem (List.mem_append.2 (Or.inr hrb))
    rw [process_ar, foldl_onGetMarker_visible_iff, hvis]
    constructor
    · rintro (h | ⟨m, hm, hhit⟩)
      · cases h
      · unfold hits at hhit
        rw [clearTables_patternMarkers, clearTables_barcodeMarkers] at hhit
        rcases hhit with hh | hh
        · exact absurd hrb (hdisj (mem_tblRefs (tblLookup_mem hh)))
        · exact ⟨m, hm, tblLookup_of_nodup_unique hndb hh hu⟩
    · rintro ⟨m, hm, hid⟩
      refine Or.inr ⟨m, hm, ?_⟩
      unfold hits
      rw [clearTables_barcodeMarkers]
      exact Or.inr (hid ▸ hu)

/-- Witness for C3 on `demoState`: reporting pattern UID 3 makes object 0
visible; the barcode object 1, not reported, stays invisible. -/
theorem process_visibility_witness :
    ARState.WF demoState ∧
    (((process demoScene [⟨3, -1, List.replicate 16 2⟩]
        (List.replicate 16 9)).ar.objs 0).visible = true ↔
      ∃ m ∈ [(⟨3, -1, List.replicate 16 2⟩ : MarkerReport)], m.idPatt = 3) ∧
    (((process demoScene [⟨3, -1, List.replicate 16 2⟩]
        (List.replicate 16 9)).ar.objs 1).visible = true ↔
      ∃ m ∈ [(⟨3, -1, List.replicate 16 2⟩ : MarkerReport)], m.idMatrix = 20) := by
  have h := process_visibility demoScene [⟨3, -1, List.replicate 16 2⟩]
    (List.replicate 16 9) (by decide)
  exact ⟨by decide, h.2.1 3 0 (by decide), h.2.2 20 1 (by decide)⟩

/-- C7: `createThreeMarker` stores a fresh `Object3D` with
`matrixAutoUpdate = false` under the given UID in `patternMarkers` and
returns that same object, leaving `barcodeMarkers` unchanged;
`createThreeBarcodeMarker` is the exact mirror; and the per-frame clearing
loops reset the tracking state (`visible`) of every entry of both tables. -/
theorem createMarkers_tables_spec (s : ARState) (markerUID : Int) (hwf : s.WF) :
    (createThreeMarker s markerUID).1.objs (createThreeMarker s markerUID).2 =
      { Object3D.new with matrixAutoUpdate := false } ∧
    (createThreeMarker s markerUID).1.patternMarkers =
      tblInsert s.patternMarkers markerUID (createThreeMarker s markerUID).2 ∧
    tblLookup (createThreeMarker s markerUID).1.patternMarkers markerUID =
      some (createThreeMarker s markerUID).2 ∧
    (createThreeMarker s markerUID).1.barcodeMarkers = s.barcodeMarkers ∧
    (createThreeMarker s markerUID).2 ∉
      tblRefs s.patternMarkers ++ tblRefs s.barcodeMarkers ∧
    (createThreeBarcodeMarker s markerUID).1.objs
        (createThreeBarcodeMarker s markerUID).2 =
      { Object3D.new with matrixAutoUpdate := false } ∧
    (createThreeBarcodeMarker s markerUID).1.barcodeMarkers =
      tblInsert s.barcodeMarkers markerUID (createThreeBarcodeMarker s markerUID).2 ∧
    tblLookup (createThreeBarcodeMarker s markerUID).1.barcodeMarkers markerUID =
      some (createThreeBarcodeMarker s markerUID).2 ∧
    (createThreeBarcodeMarker s markerUID).1.patternMarkers = s.patternMarkers ∧
    (createThreeBarcodeMarker s markerUID).2 ∉
      tblRefs s.patternMarkers ++ tblRefs s.barcodeMarkers ∧
    (∀ u r, tblLookup s.patternMarkers u = some r →
       ((clearTables s).objs r).visible = false) ∧
    (∀ u r, tblLookup s.barcodeMarkers u = some r →
       ((clearTables s).objs r).visible = false) := by
  refine ⟨?_, rfl, ?_, rfl, ?_, ?_, rfl, ?_, rfl, ?_, ?_, ?_⟩
  · rw [createThreeMarker_objs, createThreeMarker_ref, if_pos rfl]
  · rw [createThreeMarker_patternMarkers, createThreeMarker_ref]
    exact tblLookup_insert_self s.patternMarkers markerUID s.nextRef
  · rw [createThreeMarker_ref]
    exact fresh_not_mem hwf
  · rw [createThreeBarcodeMarker_objs, createThreeBarcodeMarker_ref, if_pos rfl]
  · rw [createThreeBarcodeMarker_barcodeMarkers, createThreeBarcodeMarker_ref]
    exact tblLookup_insert_self s.barcodeMarkers markerUID s.nextRef
  · rw [createThreeBarcodeMarker_ref]
    exact fresh_not_mem hwf
  · intro u r hu
    exact clearTables_visible_of_mem
      (List.mem_append.2 (Or.inl (mem_tblRefs (tblLookup_mem hu))))
  · intro u r hu
    exact clearTables_visible_of_mem
      (List.mem_append.2 (Or.inr (mem_tblRefs (tblLookup_mem hu))))

/-- Witness for C7 on `demoState`: registering UID 9 stores and returns
reference 2, and clearing hides the registered object 0. -/
theorem createMarkers_tables_spec_witness :
    ARState.WF demoState ∧
    tblLookup (createThreeMarker demoState 9).1.patternMarkers 9 =
      some (createThreeMarker demoState 9).2 ∧
    ((clearTables demoState).objs 0).visible = false := by
  have h := createMarkers_tables_spec demoState 9 (by decide)
  exact ⟨by decide, h.2.2.1, h.2.2.2.2.2.2.2.2.2.2.1 3 0 (by decide)⟩

/-- C9: registering the same UID twice is last-write-wins.  The second
`createThreeMarker` call returns a different (fresh) object, the table maps
the UID to the second object only, and a subsequent `onGetMarker` report
for that UID leaves the first object untouched while showing the second;
the mirror statement holds for `createThreeBarcodeMarker`. -/
theorem reregister_last_write_wins (s : ARState) (u : Int) (m mb : MarkerReport)
    (hwf : s.WF) (hm : m.idPatt = u) (hmb : mb.idMatrix = u) :
    (createThreeMarker (createThreeMarker s u).1 u).2 ≠ (createThreeMarker s u).2 ∧
    tblLookup (createThreeMarker (createThreeMarker s u).1 u).1.patternMarkers u =
      some (createThreeMarker (createThreeMarker s u).1 u).2 ∧
    (onGetMarker (createThreeMarker (createThreeMarker s u).1 u).1 m).objs
        (createThreeMarker s u).2 =
      (createThreeMarker (createThreeMarker s u).1 u).1.objs
        (createThreeMarker s u).2 ∧
    ((onGetMarker (createThreeMarker (createThreeMarker s u).1 u).1 m).objs
        (createThreeMarker (createThreeMarker s u).1 u).2).visible = true ∧
    (createThreeBarcodeMarker (createThreeBarcodeMarker s u).1 u).2 ≠
      (createThreeBarcodeMarker s u).2 ∧
    tblLookup
        (createThreeBarcodeMarker (createThreeBarcodeMarker s u).1 u).1.barcodeMarkers
        u =
      some (createThreeBarcodeMarker (createThreeBarcodeMarker s u).1 u).2 ∧
    (onGetMarker (createThreeBarcodeMarker (createThreeBarcodeMarker s u).1 u).1
        mb).objs (createThreeBarcodeMarker s u).2 =
      (createThreeBarcodeMarker (createThreeBarcodeMarker s u).1 u).1.objs
        (createThreeBarcodeMarker s u).2 ∧
    ((onGetMarker (createThreeBarcodeMarker (createThreeBarcodeMarker s u).1 u).1
        mb).objs
        (createThreeBarcodeMarker (createThreeBarcodeMarker s u).1 u).2).visible =
      true := by
  refine ⟨?_, ?_, ?_, ?_, ?_, ?_, ?_, ?_⟩
  · simp only [createThreeMarker_ref, createThreeMarker_nextRef]
    omega
  · simp only [createThreeMarker_patternMarkers, createThreeMarker_ref,
      createThreeMarker_nextRef]
    exact tblLookup_insert_self _ u (s.nextRef + 1)
  · refine onGetMarker_objs_of_not_hits ?_
    unfold hits
    push_neg
    constructor
    · rw [hm]
      simp only [createThreeMarker_patternMarkers, createThreeMarker_ref,
        createThreeMarker_nextRef, tblLookup_insert_self]
      intro hc
      have := Option.some.inj hc
      omega
    · simp only [createThreeMarker_barcodeMarkers, createThreeMarker_ref]
      intro hc
      have := tblLookup_lt_of_WF_barcode hwf hc
      omega
  · refine onGetMarker_visible_of_hits ?_
    unfold hits
    left
    rw [hm]
    simp only [createThreeMarker_patternMarkers, createThreeMarker_ref,
      createThreeMarker_nextRef]
    exact tblLookup_insert_self _ u (s.nextRef + 1)
  · simp only [createThreeBarcodeMarker_ref, createThreeBarcodeMarker_nextRef]
    omega
  · simp only [createThreeBarcodeMarker_barcodeMarkers, createThreeBarcodeMarker_ref,
      createThreeBarcodeMarker_nextRef]
    exact tblLookup_insert_self _ u (s.nextRef + 1)
  · refine onGetMarker_objs_of_not_hits ?_
    unfold hits
    push_neg
    constructor
    · simp only [createThreeBarcodeMarker_patternMarkers, createThreeBarcodeMarker_ref]
      intro hc
      have := tblLookup_lt_of_WF_pattern hwf hc
      omega
    · rw [hmb]
      simp only [createThreeBarcodeMarker_barcodeMarkers, createThreeBarcodeMarker_ref,
        createThreeBarcodeMarker_nextRef, tblLookup_insert_self]
      intro hc
      have := Option.some.inj hc
      omega
  · refine onGetMarker_visible_of_hits ?_
    unfold hits
    right
    rw [hmb]
    simp only [createThreeBarcodeMarker_barcodeMarkers, createThreeBarcodeMarker_ref,
      createThreeBarcodeMarker_nextRef]
    exact tblLookup_insert_self _ u (s.nextRef + 1)

/-- Witness for C9: re-registering UID 3 on `demoState` maps 3 to the new
object, and a report for UID 3 shows only the new object. -/
theorem reregister_last_write_wins_witness :
    ARState.WF demoState ∧
    tblLookup (createThreeMarker (createThreeMarker demoState 3).1 3).1.patternMarkers
        3 = some (createThreeMarker (createThreeMarker demoState 3).1 3).2 ∧
    ((onGetMarker (createThreeMarker (createThreeMarker demoState 3).1 3).1
        ⟨3, 99, List.replicate 16 4⟩).objs
        (createThreeMarker (createThreeMarker demoState 3).1 3).2).visible = true := by
  have h := reregister_last_write_wins demoState 3 ⟨3, 99, List.replicate 16 4⟩
    ⟨99, 3, List.replicate 16 4⟩ (by decide) rfl rfl
  exact ⟨by decide, h.2.1, h.2.2.2.1⟩

/-- Witness for C4 on `demoScene` with a concrete camera matrix. -/
theorem process_sets_cameraProjection_witness :
    (List.replicate 16 (9 : Int)).length = 16 ∧
    (process demoScene [] (List.replicate 16 9)).cameraProjection.elements =
      List.replicate 16 9 :=
  ⟨by decide, process_sets_cameraProjection demoScene [] (List.replicate 16 9)
    (by decide) (by decide)⟩
